import Mathlib

/-!
Shallow embedding of `src/python/triangula/util.py`.

`IntervalCheck` is the rate-limiting gate of the repository: it remembers the
time of the last permitted action (`last_time`, absent until the first call)
and a configured `interval`. Time is modelled as an exact rational number of
seconds. The wall clock and the sleeping primitive are environment effects,
so each operation takes the observed `now` as an argument and returns, beside
the updated state, what it asked of the environment: `should_run` returns the
boolean it hands back to the caller, `sleep` returns the duration it passed to
the sleep primitive (`none` when the primitive was not invoked at all).

`get_ip_address` wraps a fallible system lookup (socket plus SIOCGIFADDR
ioctl) in a catch-all handler; the lookup is modelled as a function from the
(15-character-truncated) interface name to `Except Unit String`.
-/

structure IntervalCheck where
  interval : ℚ
  last_time : Option ℚ
deriving DecidableEq, Repr

namespace IntervalCheck

/-- Embeds `IntervalCheck.should_run`: permit when no baseline is set or the
elapsed time strictly exceeds the interval, re-baselining to `now`; otherwise
refuse and leave the state alone. -/
def should_run (c : IntervalCheck) (now : ℚ) : Bool × IntervalCheck :=
  match c.last_time with
  | none => (true, { c with last_time := some now })
  | some t =>
      if now - t > c.interval then
        (true, { c with last_time := some now })
      else
        (false, c)

/-- Embeds `IntervalCheck.sleep`: establish the baseline without sleeping on
the first call, return at once when the interval has already elapsed, and
otherwise sleep for the remaining part of the interval and advance the
baseline to the intended target time. The first component records the
duration handed to the sleep primitive (`none` when it was not called). -/
def sleep (c : IntervalCheck) (now : ℚ) : Option ℚ × IntervalCheck :=
  match c.last_time with
  | none => (none, { c with last_time := some now })
  | some t =>
      if now - t > c.interval then
        (none, c)
      else
        let remaining_interval := c.interval - (now - t)
        (some remaining_interval,
         { c with last_time := some (now + remaining_interval) })

/-- The two public operations of the gate, for reasoning about call traces. -/
inductive Op
  | poll
  | wait
deriving DecidableEq, Repr

/-- One call of the chosen operation at observed time `now`, keeping only the
state. -/
def step (c : IntervalCheck) (op : Op) (now : ℚ) : IntervalCheck :=
  match op with
  | .poll => (c.should_run now).2
  | .wait => (c.sleep now).2

/-- A whole trace of calls, each paired with its clock observation. -/
def run (c : IntervalCheck) : List (Op × ℚ) → IntervalCheck
  | [] => c
  | (op, now) :: rest => run (c.step op now) rest

end IntervalCheck

/-- Embeds `get_ip_address`: the socket/ioctl lookup is an environment
function `query` from the truncated interface name (`ifname[:15]`) to either
the textual address or a failure; the catch-all `except:` clause turns every
failure into the placeholder string, so the function is total and never
propagates an exception. -/
def get_ip_address (query : String → Except Unit String) (ifname : String) :
    String :=
  match query (ifname.take 15) with
  | .ok addr => addr
  | .error _ => "--.--.--"

/-- C1: for a gate with positive interval whose baseline is set, `should_run`
returns false when the elapsed time is at most the interval (including the
exact boundary), and returns true and re-baselines `last_time` to the
observed `now` (not to `last_time + interval`) when the elapsed time strictly
exceeds the interval. -/
theorem C1_poll_throttle (c : IntervalCheck) (t now : ℚ)
    (hl : c.last_time = some t) (_hT : 0 < c.interval) :
    (now - t ≤ c.interval → c.should_run now = (false, c)) ∧
    (c.interval < now - t →
      c.should_run now = (true, { c with last_time := some now })) := by
  constructor
  · intro h
    simp [IntervalCheck.should_run, hl, not_lt.mpr h]
  · intro h
    simp [IntervalCheck.should_run, hl, h]

/-- Witness for C1: interval 1, baseline 0; a poll at time 1 (elapsed exactly
the interval) is refused, a poll at time 2 permits and re-baselines to 2. -/
theorem C1_poll_throttle_witness :
    (IntervalCheck.mk 1 (some 0)).should_run 1 =
        (false, IntervalCheck.mk 1 (some 0)) ∧
    (IntervalCheck.mk 1 (some 0)).should_run 2 =
        (true, IntervalCheck.mk 1 (some 2)) :=
  ⟨(C1_poll_throttle (IntervalCheck.mk 1 (some 0)) 0 1 rfl (by norm_num)).1
      (by norm_num),
   (C1_poll_throttle (IntervalCheck.mk 1 (some 0)) 0 2 rfl (by norm_num)).2
      (by norm_num)⟩

/-- C2: on a fresh gate (no baseline) with positive interval, `should_run`
permits and sets the baseline to the observed `now`, and `sleep` sets the
baseline to the observed `now` and returns without invoking the sleep
primitive. -/
theorem C2_first_call (c : IntervalCheck) (now : ℚ)
    (hl : c.last_time = none) (_hT : 0 < c.interval) :
    c.should_run now = (true, { c with last_time := some now }) ∧
    c.sleep now = (none, { c with last_time := some now }) := by
  constructor <;> simp [IntervalCheck.should_run, IntervalCheck.sleep, hl]

/-- Witness for C2: a fresh gate with interval 1 polled, or waited on, at
time 7. -/
theorem C2_first_call_witness :
    (IntervalCheck.mk 1 none).should_run 7 =
        (true, IntervalCheck.mk 1 (some 7)) ∧
    (IntervalCheck.mk 1 none).sleep 7 =
        (none, IntervalCheck.mk 1 (some 7)) :=
  C2_first_call (IntervalCheck.mk 1 none) 7 rfl (by norm_num)

/-- C3: when `sleep` takes the not-yet-open branch (baseline set and elapsed
time at most the interval), it sleeps for exactly
`interval - (now - last_time)` and afterwards sets the baseline to
`now + remaining`, which equals the old `last_time + interval`. -/
theorem C3_wait_sleeps (c : IntervalCheck) (t now : ℚ)
    (hl : c.last_time = some t) (h : now - t ≤ c.interval) :
    c.sleep now =
      (some (c.interval - (now - t)),
       { c with last_time := some (now + (c.interval - (now - t))) }) ∧
    now + (c.interval - (now - t)) = t + c.interval := by
  refine ⟨?_, by ring⟩
  simp [IntervalCheck.sleep, hl, not_lt.mpr h]

/-- Witness for C3: interval 2, baseline 0, wait at time 1: sleeps 1 and the
baseline becomes 2 = 0 + 2. -/
theorem C3_wait_sleeps_witness :
    (IntervalCheck.mk 2 (some 0)).sleep 1 =
        (some 1, IntervalCheck.mk 2 (some 2)) ∧
    (1 : ℚ) + (2 - (1 - 0)) = 0 + 2 := by
  have h := C3_wait_sleeps (IntervalCheck.mk 2 (some 0)) 0 1 rfl (by norm_num)
  refine ⟨?_, by norm_num⟩
  have h1 := h.1
  norm_num at h1
  exact h1

/-- C4: when the baseline is set and the elapsed time strictly exceeds the
interval, `sleep` returns at once and leaves the whole state unchanged: the
next call still measures from the old baseline. -/
theorem C4_wait_open_frame (c : IntervalCheck) (t now : ℚ)
    (hl : c.last_time = some t) (h : c.interval < now - t) :
    c.sleep now = (none, c) := by
  simp [IntervalCheck.sleep, hl, h]

/-- Witness for C4: interval 1, baseline 0, wait at time 5. -/
theorem C4_wait_open_frame_witness :
    (IntervalCheck.mk 1 (some 0)).sleep 5 =
        (none, IntervalCheck.mk 1 (some 0)) :=
  C4_wait_open_frame (IntervalCheck.mk 1 (some 0)) 0 5 rfl (by norm_num)

/-- C5: when `should_run` refuses (baseline set and elapsed time at most the
interval), it returns false and the whole state, both `last_time` and
`interval`, is unchanged. -/
theorem C5_poll_refuse_frame (c : IntervalCheck) (t now : ℚ)
    (hl : c.last_time = some t) (h : now - t ≤ c.interval) :
    c.should_run now = (false, c) := by
  simp [IntervalCheck.should_run, hl, not_lt.mpr h]

/-- Witness for C5: interval 1, baseline 0, poll at time 1. -/
theorem C5_poll_refuse_frame_witness :
    (IntervalCheck.mk 1 (some 0)).should_run 1 =
        (false, IntervalCheck.mk 1 (some 0)) :=
  C5_poll_refuse_frame (IntervalCheck.mk 1 (some 0)) 0 1 rfl (by norm_num)

/-- C6 counterexample: with interval 0 and a baseline already set to 5, a
poll at time 5 — a call after the first, with non-negative elapsed time 0 —
returns false, because 0 > 0 fails; so it is not the case that every poll
after the first returns true. -/
theorem C6_counterexample :
    (IntervalCheck.mk 0 (some 5)).should_run 5 =
        (false, IntervalCheck.mk 0 (some 5)) := by
  norm_num [IntervalCheck.should_run]

/-- C6 (amended): for a gate whose baseline is set, if the interval is at
most 0 then every poll observing a strictly later time returns true, and if
the interval is strictly negative then even a poll at the very same time
(elapsed time 0, or any non-negative elapsed time) returns true. -/
theorem C6_degenerate_interval (c : IntervalCheck) (t now : ℚ)
    (hl : c.last_time = some t) :
    (c.interval ≤ 0 → t < now → (c.should_run now).1 = true) ∧
    (c.interval < 0 → t ≤ now → (c.should_run now).1 = true) := by
  constructor
  · intro h0 hlt
    have hc : c.interval < now - t := lt_of_le_of_lt h0 (by linarith)
    simp [IntervalCheck.should_run, hl, hc]
  · intro h0 hle
    have hc : c.interval < now - t := lt_of_lt_of_le h0 (by linarith)
    simp [IntervalCheck.should_run, hl, hc]

/-- Witness for C6 (amended): interval 0 polled at a later time, and interval
-1 polled at the same time, both permit. -/
theorem C6_degenerate_interval_witness :
    ((IntervalCheck.mk 0 (some 5)).should_run 6).1 = true ∧
    ((IntervalCheck.mk (-1) (some 5)).should_run 5).1 = true :=
  ⟨(C6_degenerate_interval (IntervalCheck.mk 0 (some 5)) 5 6 rfl).1
      (by norm_num) (by norm_num),
   (C6_degenerate_interval (IntervalCheck.mk (-1) (some 5)) 5 5 rfl).2
      (by norm_num) (by norm_num)⟩

/-- C7: whenever `sleep` invokes the sleep primitive, the duration it hands
over is non-negative — the branch that reaches the primitive is guarded by
the elapsed time being at most the interval. -/
theorem C7_sleep_duration_nonneg (c : IntervalCheck) (now r : ℚ)
    (h : (c.sleep now).1 = some r) : 0 ≤ r := by
  cases hl : c.last_time with
  | none => simp [IntervalCheck.sleep, hl] at h
  | some t =>
      by_cases hc : now - t > c.interval
      · simp [IntervalCheck.sleep, hl, hc] at h
      · simp [IntervalCheck.sleep, hl, hc] at h
        have hle : now - t ≤ c.interval := not_lt.mp hc
        linarith [h]

/-- Witness for C7: interval 3, baseline 0, wait at time 1 requests a sleep
of 2, which is non-negative. -/
theorem C7_sleep_duration_nonneg_witness :
    (0 : ℚ) ≤ 2 ∧ ((IntervalCheck.mk 3 (some 0)).sleep 1).1 = some 2 :=
  ⟨C7_sleep_duration_nonneg (IntervalCheck.mk 3 (some 0)) 1 2 (by norm_num
      [IntervalCheck.sleep]),
   by norm_num [IntervalCheck.sleep]⟩

/-- C8: with a positive interval and a set baseline, a backward-stepped clock
(negative elapsed time) makes `should_run` return false without mutating
state, and makes `sleep` request a recomputed duration
`interval - (now - last_time)` that is non-negative and at least as long as
the interval itself; neither operation fails. -/
theorem C8_clock_backward (c : IntervalCheck) (t now : ℚ)
    (hT : 0 < c.interval) (hl : c.last_time = some t) (h : now - t < 0) :
    c.should_run now = (false, c) ∧
    c.sleep now =
      (some (c.interval - (now - t)),
       { c with last_time := some (now + (c.interval - (now - t))) }) ∧
    c.interval ≤ c.interval - (now - t) ∧
    0 ≤ c.interval - (now - t) := by
  have hle : now - t ≤ c.interval := by linarith
  refine ⟨?_, ?_, by linarith, by linarith⟩
  · simp [IntervalCheck.should_run, hl, not_lt.mpr hle]
  · simp [IntervalCheck.sleep, hl, not_lt.mpr hle]

/-- Witness for C8: interval 1, baseline 10, clock stepped back to 8: the
poll refuses, the wait requests a sleep of 3 which is at least 1 and at
least 0. -/
theorem C8_clock_backward_witness :
    (IntervalCheck.mk 1 (some 10)).should_run 8 =
        (false, IntervalCheck.mk 1 (some 10)) ∧
    ((IntervalCheck.mk 1 (some 10)).sleep 8).1 = some 3 := by
  have h := C8_clock_backward (IntervalCheck.mk 1 (some 10)) 10 8
      (by norm_num) rfl (by norm_num)
  refine ⟨h.1, ?_⟩
  rw [h.2.1]
  norm_num

/-- Interval is never mutated by a step: both operations only rewrite the
baseline. -/
theorem IntervalCheck.step_interval (c : IntervalCheck) (op : IntervalCheck.Op)
    (now : ℚ) : (c.step op now).interval = c.interval := by
  cases op <;>
    simp only [IntervalCheck.step, IntervalCheck.should_run,
      IntervalCheck.sleep] <;>
    cases c.last_time <;> simp <;> split <;> simp

/-- A single step never moves a set baseline backward when the interval is
positive. -/
theorem IntervalCheck.step_last_mono (c : IntervalCheck) (op : IntervalCheck.Op)
    (now t : ℚ) (hT : 0 < c.interval) (hl : c.last_time = some t) :
    ∃ u, (c.step op now).last_time = some u ∧ t ≤ u := by
  cases op with
  | poll =>
      by_cases hc : now - t > c.interval
      · exact ⟨now, by simp [IntervalCheck.step, IntervalCheck.should_run, hl,
          hc], by linarith⟩
      · exact ⟨t, by simp [IntervalCheck.step, IntervalCheck.should_run, hl,
          hc], le_refl t⟩
  | wait =>
      by_cases hc : now - t > c.interval
      · exact ⟨t, by simp [IntervalCheck.step, IntervalCheck.sleep, hl, hc],
          le_refl t⟩
      · exact ⟨now + (c.interval - (now - t)),
          by simp [IntervalCheck.step, IntervalCheck.sleep, hl, hc],
          by linarith⟩

/-- C9: for a positive interval and a clock whose successive readings are
non-decreasing, the stored baseline is monotonically non-decreasing across
every trace of poll and wait calls: once set to `t`, after any trace it is
still set, to some value at least `t`. -/
theorem C9_last_time_monotone (c : IntervalCheck)
    (trace : List (IntervalCheck.Op × ℚ)) (t : ℚ) (hT : 0 < c.interval)
    (_hclock : List.Chain' (fun a b => a ≤ b) (trace.map Prod.snd))
    (hl : c.last_time = some t) :
    ∃ u, (c.run trace).last_time = some u ∧ t ≤ u := by
  clear _hclock
  induction trace generalizing c t with
  | nil => exact ⟨t, hl, le_refl t⟩
  | cons p rest ih =>
      obtain ⟨op, now⟩ := p
      obtain ⟨u, hu, htu⟩ := IntervalCheck.step_last_mono c op now t hT hl
      have hT2 : 0 < (c.step op now).interval := by
        rw [IntervalCheck.step_interval]; exact hT
      obtain ⟨v, hv, huv⟩ := ih (c.step op now) u hT2 hu
      exact ⟨v, hv, le_trans htu huv⟩

/-- Witness for C9: interval 1, baseline 0, trace poll at 2 (permits,
baseline 2), wait at 2 (sleeps, baseline 3), poll at 3 (refuses): the final
baseline is set and at least 0. -/
theorem C9_last_time_monotone_witness :
    ∃ u, ((IntervalCheck.mk 1 (some 0)).run
        [(IntervalCheck.Op.poll, 2), (IntervalCheck.Op.wait, 2),
         (IntervalCheck.Op.poll, 3)]).last_time = some u ∧ (0 : ℚ) ≤ u :=
  C9_last_time_monotone (IntervalCheck.mk 1 (some 0))
    [(IntervalCheck.Op.poll, 2), (IntervalCheck.Op.wait, 2),
     (IntervalCheck.Op.poll, 3)] 0 (by norm_num)
    (by simp [List.chain'_cons]; norm_num) rfl

/-- C10: for every interface name and every outcome of the underlying system
lookup, `get_ip_address` is total — it never propagates a failure: on any
failure of the lookup it returns the placeholder string, and on success it
returns the textual address the lookup produced. -/
theorem C10_get_ip_address_total (query : String → Except Unit String)
    (ifname : String) :
    (∀ e, query (ifname.take 15) = Except.error e →
        get_ip_address query ifname = "--.--.--") ∧
    (∀ addr, query (ifname.take 15) = Except.ok addr →
        get_ip_address query ifname = addr) := by
  constructor <;> intro x h <;> simp [get_ip_address, h]

/-- Witness for C10: a lookup that always fails yields the placeholder; a
lookup that succeeds with a concrete address yields that address. -/
theorem C10_get_ip_address_total_witness :
    get_ip_address (fun _ => Except.error ()) "wlan0" = "--.--.--" ∧
    get_ip_address (fun _ => Except.ok "192.168.0.7") "wlan0" =
        "192.168.0.7" :=
  ⟨(C10_get_ip_address_total (fun _ => Except.error ()) "wlan0").1 () rfl,
   (C10_get_ip_address_total (fun _ => Except.ok "192.168.0.7") "wlan0").2
      "192.168.0.7" rfl⟩
